import Mathlib

/-!
Verification of the interactive layer of a static portfolio page
(`script.js`).  The DOM event handlers are embedded shallowly: each
handler becomes a pure function on an explicit state, DOM queries become
`Option`/`Bool` fields of a page record, and thrown exceptions become
`Except` errors.
-/

namespace Portfolio

/-! ## Scroll tracker and nav highlighter (`updateActiveNav`, script.js 36-52) -/

/-- A `&lt;section&gt;` element: its id attribute, `offsetTop` and `clientHeight`. -/
structure Sect where
  id : String
  offsetTop : Int
  clientHeight : Int
deriving Repr, DecidableEq

/-- A navigation link: its `href` attribute and whether its class list
currently holds the `active` marker. -/
structure NavLink where
  href : String
  active : Bool
deriving Repr, DecidableEq

/-- `charsPrefix p l` holds when the character list `p` starts the list `l`. -/
def charsPrefix : List Char → List Char → Bool
  | [], _ => true
  | _ :: _, [] => false
  | a :: p, b :: l => a == b && charsPrefix p l

/-- `charsIncludes hay needle`: `needle` occurs as a contiguous run inside
`hay`; mirrors JavaScript `String.prototype.includes`. -/
def charsIncludes (hay needle : List Char) : Bool :=
  charsPrefix needle hay ||
    (match hay with
     | [] => false
     | _ :: t => charsIncludes t needle)

/-- `strIncludes s sub` mirrors the JavaScript call `s.includes(sub)`. -/
def strIncludes (s sub : String) : Bool :=
  charsIncludes s.data sub.data

/-- The first loop of `updateActiveNav` (script.js 37-44): fold over the
sections, retaining the id of the last section whose
`offsetTop - 200 ≤ scrollY`; the accumulator starts as the empty string. -/
def computeCurrent (scrollY : Int) (sections : List Sect) : String :=
  sections.foldl
    (fun current s => if scrollY ≥ s.offsetTop - 200 then s.id else current) ""

/-- The second loop of `updateActiveNav` (script.js 46-51): every link drops
the `active` marker, then regains it when its `href` contains the current
id as a substring (`link.getAttribute('href').includes(current)`). -/
def updateActiveNav (scrollY : Int) (sections : List Sect) (links : List NavLink) :
    List NavLink :=
  let current := computeCurrent scrollY sections
  links.map (fun l => { l with active := strIncludes l.href current })

/-- Number of links carrying the active marker. -/
def activeCount (links : List NavLink) : Nat :=
  (links.filter (fun l => l.active)).length

/-! ## Image carousel (script.js 100-140) -/

/-- The `prev-btn` click handler (script.js 122-125):
`(currentImageIndex - 1 + images.length) % images.length`, with JavaScript
integer arithmetic; all reachable operands are non-negative so Euclidean
`%` agrees with the JavaScript remainder. -/
def prevImage (n : Nat) (i : Int) : Int :=
  (i - 1 + (n : Int)) % (n : Int)

/-- The `next-btn` click handler (script.js 129-132):
`(currentImageIndex + 1) % images.length`. -/
def nextImage (n : Nat) (i : Int) : Int :=
  (i + 1) % (n : Int)

/-- The `setInterval` callback installed for a multi-image card
(script.js 136-139): `(currentImageIndex + 1) % images.length`. -/
def autoTick (n : Nat) (i : Int) : Int :=
  (i + 1) % (n : Int)

/-- What the per-card setup loop (script.js 102-140) installs for a card:
whether the `image-nav` element was hidden, which click handlers were
registered, and whether the auto-rotation interval was started. -/
structure CardSetup where
  imageNavHidden : Bool
  hasPrevHandler : Bool
  hasNextHandler : Bool
  hasAutoTimer : Bool
deriving Repr, DecidableEq

/-- The body of `projectCards.forEach` (script.js 102-140).  With at most
one image it hides the `image-nav` element when present and returns before
registering any handler or timer; otherwise it registers the click handlers
for whichever buttons exist and always starts the interval. -/
def setupCard (numImages : Nat) (hasImageNav hasPrev hasNext : Bool) : CardSetup :=
  if numImages ≤ 1 then
    { imageNavHidden := hasImageNav
      hasPrevHandler := false
      hasNextHandler := false
      hasAutoTimer := false }
  else
    { imageNavHidden := false
      hasPrevHandler := hasPrev
      hasNextHandler := hasNext
      hasAutoTimer := true }

/-- Events a card can receive after setup. -/
inductive CardEvent
  | prevClick
  | nextClick
  | tick
deriving Repr, DecidableEq

/-- One event dispatched to a card: a handler runs only when setup
registered it, otherwise the index is untouched. -/
def cardStep (numImages : Nat) (s : CardSetup) (i : Int) : CardEvent → Int
  | .prevClick => if s.hasPrevHandler then prevImage numImages i else i
  | .nextClick => if s.hasNextHandler then nextImage numImages i else i
  | .tick => if s.hasAutoTimer then autoTick numImages i else i

/-- A whole event sequence dispatched to a card. -/
def runCard (numImages : Nat) (s : CardSetup) (i : Int) (evs : List CardEvent) : Int :=
  evs.foldl (cardStep numImages s) i

/-! ## Skill progress animation (`animateSkills`, script.js 83-94) -/

/-- A skill bar: its `data-progress` attribute, its displayed width style,
and whether its class list holds `animated`. -/
structure SkillBar where
  progress : String
  width : String
  animated : Bool
deriving Repr, DecidableEq

/-- The bounding client rect of a bar at one invocation (layout input). -/
structure BarRect where
  top : Int
  bottom : Int
deriving Repr, DecidableEq

/-- The per-bar body of `animateSkills` (script.js 84-93): the bar is
`isVisible` when `rect.top >= 0 && rect.bottom <= window.innerHeight`; a
visible, not-yet-animated bar gets its width set to `progress + '%'` and
the `animated` class added, otherwise nothing changes. -/
def animateSkillsBar (innerHeight : Int) (rect : BarRect) (bar : SkillBar) :
    SkillBar :=
  let isVisible := decide (rect.top ≥ 0) && decide (rect.bottom ≤ innerHeight)
  if isVisible && !bar.animated then
    { bar with width := bar.progress ++ "%", animated := true }
  else
    bar

/-- One invocation of `animateSkills` over all bars, each paired with its
current bounding rect. -/
def animateSkills (innerHeight : Int) (bars : List (BarRect × SkillBar)) :
    List (BarRect × SkillBar) :=
  bars.map (fun p => (p.1, animateSkillsBar innerHeight p.1 p.2))

/-! ## Contact composer (script.js 166-197) -/

/-- Upper-case hexadecimal digit, as produced by `encodeURIComponent`. -/
def hexDigit (n : Nat) : Char :=
  if n < 10 then Char.ofNat (48 + n) else Char.ofNat (55 + n)

/-- A percent-escaped byte: `%XY`. -/
def byteHex (b : Nat) : List Char := ['%', hexDigit (b / 16), hexDigit (b % 16)]

/-- UTF-8 bytes of a code point, as `encodeURIComponent` escapes them. -/
def utf8Bytes (c : Nat) : List Nat :=
  if c < 128 then [c]
  else if c < 2048 then [192 + c / 64, 128 + c % 64]
  else if c < 65536 then [224 + c / 4096, 128 + (c / 64) % 64, 128 + c % 64]
  else [240 + c / 262144, 128 + (c / 4096) % 64, 128 + (c / 64) % 64, 128 + c % 64]

/-- The code points `encodeURIComponent` leaves unescaped:
`A-Z a-z 0-9 - _ . ! ~ * ' ( )` (ECMA-262). -/
def uriUnreserved (c : Nat) : Bool :=
  (65 ≤ c && c ≤ 90) || (97 ≤ c && c ≤ 122) || (48 ≤ c && c ≤ 57) ||
  c == 45 || c == 95 || c == 46 || c == 33 || c == 126 || c == 42 ||
  c == 39 || c == 40 || c == 41

/-- `encodeURIComponent` on one character. -/
def encodeChar (c : Char) : List Char :=
  if uriUnreserved c.toNat then [c] else ((utf8Bytes c.toNat).map byteHex).flatten

/-- The JavaScript built-in `encodeURIComponent`. -/
def encodeURIComponent (s : String) : String :=
  String.mk (s.data.map encodeChar).flatten

/-- The body template interpolated at script.js 180:
`Name: ${name}\nEmail: ${email}\n\nMessage:\n${message}`. -/
def mailtoBody (name email message : String) : String :=
  "Name: " ++ name ++ "\nEmail: " ++ email ++ "\n\nMessage:\n" ++ message

/-- The `mailtoLink` template literal (script.js 180). -/
def mailtoLink (name email subject message : String) : String :=
  "mailto:imriteshreddy1035@gmail.com?subject=" ++ encodeURIComponent subject ++
    "&body=" ++ encodeURIComponent (mailtoBody name email message)

/-- The contact form state the submit handler touches: current field
values, the field default values the markup declares (`form.reset()`
restores these), the submit button label (`innerHTML`) and its background
style. -/
structure FormState where
  fields : List String
  defaults : List String
  buttonLabel : String
  buttonBackground : String
deriving Repr, DecidableEq

/-- What one submission produces (script.js 169-196): the navigation
target, the state shown during the confirmation, the delay before the
reset, and the state after the `setTimeout` callback runs. -/
structure SubmitOutcome where
  navigatedTo : String
  confirming : FormState
  resetDelay : Nat
  settled : FormState
deriving Repr, DecidableEq

/-- The submit handler (script.js 169-196).  It navigates to the mailto
link, swaps the button label for the confirmation markup with a green
background, and after 3000 ms restores the captured original label, clears
the background and calls `contactForm.reset()`, which restores every field
to its markup default. -/
def handleSubmit (st : FormState) (name email subject message : String) :
    SubmitOutcome :=
  let originalText := st.buttonLabel
  { navigatedTo := mailtoLink name email subject message
    confirming :=
      { st with
        buttonLabel := "<i class=\"fas fa-check\"></i> Message Prepared!"
        buttonBackground := "#10b981" }
    resetDelay := 3000
    settled :=
      { st with
        buttonLabel := originalText
        buttonBackground := ""
        fields := st.defaults } }

/-! ## Page setup and existence guards (DOMContentLoaded handler) -/

/-- Which structural hooks the page provides; each field records whether
the corresponding `querySelector` finds an element. -/
structure Page where
  hasHamburger : Bool
  hasNavMenu : Bool
  hasNavbar : Bool
  hasTypingText : Bool
  hasContactForm : Bool
deriving Repr, DecidableEq

/-- A JavaScript runtime error, as surfaced by dereferencing `null`. -/
inductive JsError
  | typeError (accessed : String)
deriving Repr, DecidableEq

/-- What the DOMContentLoaded handler managed to set up. -/
structure InitResult where
  hamburgerToggleRegistered : Bool
  navbarScrollRegistered : Bool
  typingStarted : Bool
  contactHandlerRegistered : Bool
deriving Repr, DecidableEq

/-- The top-level DOMContentLoaded body, restricted to the cited hooks.
`querySelector` misses yield `null` without error; the first dereference of
a `null` throws.  Script.js 9 calls `hamburger.addEventListener`
unguarded, so a page without a `.hamburger` element throws a `TypeError`
during setup and nothing after that line runs.  The navbar scroll listener
(script.js 24) only closes over `navbar`, so its registration succeeds
even when `.navbar` is absent.  `typingText` (script.js 58) and
`contactForm` (script.js 168) are guarded by existence checks. -/
def initPage (p : Page) : Except JsError InitResult :=
  if !p.hasHamburger then
    .error (.typeError "hamburger.addEventListener")
  else
    .ok
      { hamburgerToggleRegistered := true
        navbarScrollRegistered := true
        typingStarted := p.hasTypingText
        contactHandlerRegistered := p.hasContactForm }

/-- The hamburger click handler (script.js 9-12): it toggles classes on
`hamburger` (known present, or the handler would not exist) and on
`navMenu`, which throws when `.nav-menu` was absent. -/
def hamburgerClick (p : Page) : Except JsError Unit :=
  if !p.hasNavMenu then .error (.typeError "navMenu.classList") else .ok ()

/-- The navbar scroll handler (script.js 24-30): both branches dereference
`navbar.classList`, which throws when `.navbar` was absent. -/
def navbarScrollHandler (p : Page) (scrollY : Int) : Except JsError Unit :=
  if !p.hasNavbar then .error (.typeError "navbar.classList")
  else if scrollY > 100 then .ok () else .ok ()

end Portfolio

namespace Portfolio

/-! Helper lemmas for the nav highlighter. -/

/-- The empty string is a substring of every string, as for JavaScript
`includes`. -/
theorem strIncludes_empty (s : String) : strIncludes s "" = true := by
  unfold strIncludes
  cases s.data with
  | nil => rfl
  | cons c t => simp [charsIncludes, charsPrefix]

/-- When no section passes the threshold test the fold keeps its
accumulator. -/
theorem computeCurrent_of_none (scrollY : Int) (sections : List Sect)
    (h : ∀ s ∈ sections, scrollY < s.offsetTop - 200) :
    computeCurrent scrollY sections = "" := by
  unfold computeCurrent
  induction sections with
  | nil => rfl
  | cons a t ih =>
      have ha : scrollY < a.offsetTop - 200 := h a (List.mem_cons_self a t)
      have hnot : ¬ scrollY ≥ a.offsetTop - 200 := not_le.mpr ha
      simp only [List.foldl_cons, if_neg hnot]
      exact ih (fun s hs => h s (List.mem_cons_of_mem a hs))

/-- C10: a nav entry receives the active marker exactly when the computed
identifier is a substring of its href; when no section passes the
threshold the identifier is the empty string, which every href contains,
so every entry receives the marker. -/
theorem nav_substring_matching (scrollY : Int) (sections : List Sect)
    (links : List NavLink) :
    ((updateActiveNav scrollY sections links).map (fun l => l.active)
        = links.map (fun l => strIncludes l.href (computeCurrent scrollY sections)))
    ∧ ((∀ s ∈ sections, scrollY < s.offsetTop - 200) →
        computeCurrent scrollY sections = ""
        ∧ (updateActiveNav scrollY sections links).map (fun l => l.active)
            = links.map (fun _ => true)) := by
  constructor
  · unfold updateActiveNav
    simp [List.map_map]
  · intro h
    have hc := computeCurrent_of_none scrollY sections h
    refine ⟨hc, ?_⟩
    unfold updateActiveNav
    simp [List.map_map, hc, strIncludes_empty, Function.comp_def]

/-- Witness for C10 at a concrete page: one section starting at offset 500,
scroll offset 0, two nav links; the computed id is empty and both links end
up marked active. -/
theorem nav_substring_matching_witness :
    computeCurrent 0 [Sect.mk "about" 500 300] = ""
    ∧ (updateActiveNav 0 [Sect.mk "about" 500 300]
          [NavLink.mk "#home" false, NavLink.mk "#about" false]).map (fun l => l.active)
        = [NavLink.mk "#home" false, NavLink.mk "#about" false].map (fun _ => true) :=
  (nav_substring_matching 0 [Sect.mk "about" 500 300]
    [NavLink.mk "#home" false, NavLink.mk "#about" false]).2 (by decide)

/-- C1: evaluation at the failing input.  At scroll offset 0, with the only
section starting at offset 500, the empty current id matches every href and
BOTH nav links carry the active marker, so more than one entry is active,
against the claimed invariant. -/
theorem nav_all_active_at_top :
    1 < activeCount (updateActiveNav 0 [Sect.mk "about" 500 300]
      [NavLink.mk "#home" false, NavLink.mk "#about" false]) := by decide

/-- C2: evaluation at the failing input.  When no section passes the
threshold the claim requires every nav entry inactive, but the handler
leaves both entries marked active. -/
theorem nav_top_of_page_all_marked :
    updateActiveNav 0 [Sect.mk "about" 500 300]
        [NavLink.mk "#home" false, NavLink.mk "#about" false]
      = [NavLink.mk "#home" true, NavLink.mk "#about" true] := by decide

/-! Helper lemmas for the carousel. -/

/-- Repeated next-clicks from index 0 reach index `k mod n`. -/
theorem iterate_nextImage (n : Nat) (k : Nat) :
    (nextImage n)^[k] 0 = (k : Int) % (n : Int) := by
  induction k with
  | zero => simp
  | succ k ih =>
      rw [Function.iterate_succ_apply', ih]
      unfold nextImage
      rw [Int.emod_add_emod]
      push_cast
      ring_nf

/-- Repeated prev-clicks from index 0 reach index `(-k) mod n`. -/
theorem iterate_prevImage (n : Nat) (k : Nat) :
    (prevImage n)^[k] 0 = (-(k : Int)) % (n : Int) := by
  induction k with
  | zero => simp
  | succ k ih =>
      rw [Function.iterate_succ_apply', ih]
      unfold prevImage
      have h1 : (-(k:Int)) % (n:Int) - 1 + (n:Int) =
          (-(k:Int)) % (n:Int) + (-1 + (n:Int)) := by ring
      rw [h1, Int.emod_add_emod]
      have h2 : -(k:Int) + (-1 + (n:Int)) = (-((k:Int) + 1)) + (n:Int) * 1 := by ring
      rw [h2, Int.add_mul_emod_self_left]
      push_cast
      ring_nf

/-- C3: the manual handlers compute `(i - 1 + n) mod n` resp.
`(i + 1) mod n`, both results stay inside `[0, n)`, they invert each other
on that range, and from index 0 repeated next-clicks cycle through
`k mod n` while repeated prev-clicks cycle in reverse through
`(-k) mod n`. -/
theorem carousel_prev_next_cycle (n : Nat) (hn : 1 < n) (i : Int)
    (h0 : 0 ≤ i) (hi : i < (n : Int)) (k : Nat) :
    prevImage n i = (i - 1 + (n : Int)) % (n : Int)
    ∧ nextImage n i = (i + 1) % (n : Int)
    ∧ (0 ≤ nextImage n i ∧ nextImage n i < (n : Int))
    ∧ (0 ≤ prevImage n i ∧ prevImage n i < (n : Int))
    ∧ prevImage n (nextImage n i) = i
    ∧ nextImage n (prevImage n i) = i
    ∧ (nextImage n)^[k] 0 = (k : Int) % (n : Int)
    ∧ (prevImage n)^[k] 0 = (-(k : Int)) % (n : Int) := by
  have hnet : (0 : Int) < (n : Int) := by exact_mod_cast Nat.lt_of_lt_of_le Nat.zero_lt_one hn.le
  have hne : (n : Int) ≠ 0 := ne_of_gt hnet
  refine ⟨rfl, rfl, ⟨Int.emod_nonneg _ hne, Int.emod_lt_of_pos _ hnet⟩,
    ⟨Int.emod_nonneg _ hne, Int.emod_lt_of_pos _ hnet⟩, ?_, ?_,
    iterate_nextImage n k, iterate_prevImage n k⟩
  · unfold prevImage nextImage
    have h3 : (i + 1) % (n:Int) - 1 + (n:Int) = (i + 1) % (n:Int) + (-1 + (n:Int)) := by
      ring
    rw [h3, Int.emod_add_emod]
    have h4 : i + 1 + (-1 + (n:Int)) = i + (n:Int) * 1 := by ring
    rw [h4, Int.add_mul_emod_self_left]
    exact Int.emod_eq_of_lt h0 hi
  · unfold prevImage nextImage
    rw [Int.emod_add_emod]
    have h5 : i - 1 + (n:Int) + 1 = i + (n:Int) * 1 := by ring
    rw [h5, Int.add_mul_emod_self_left]
    exact Int.emod_eq_of_lt h0 hi

/-- Witness for C3 on a four-image carousel at index 2 with five clicks:
prev lands on 1, next on 3, both in range and mutually inverse, five
next-clicks from 0 land on 1 and five prev-clicks from 0 land on 3. -/
theorem carousel_prev_next_cycle_witness :
    prevImage 4 2 = 1 ∧ nextImage 4 2 = 3
    ∧ (0 ≤ nextImage 4 2 ∧ nextImage 4 2 < 4)
    ∧ (0 ≤ prevImage 4 2 ∧ prevImage 4 2 < 4)
    ∧ prevImage 4 (nextImage 4 2) = 2
    ∧ nextImage 4 (prevImage 4 2) = 2
    ∧ (nextImage 4)^[5] 0 = 1
    ∧ (prevImage 4)^[5] 0 = 3 := by
  have h := carousel_prev_next_cycle 4 (by decide) 2 (by decide) (by decide) 5
  exact ⟨h.1.trans (by decide), h.2.1.trans (by decide), h.2.2.1, h.2.2.2.1,
    h.2.2.2.2.1, h.2.2.2.2.2.1,
    (h.2.2.2.2.2.2.1).trans (by decide), (h.2.2.2.2.2.2.2).trans (by decide)⟩

/-- C4: the auto-rotation callback is the same transition as the manual
next handler, and `k` timer firings from index 0 land on `k mod n`; for a
four-image carousel five firings land on index 1. -/
theorem carousel_auto_rotation (n : Nat) (hn : 1 < n) (i : Int) (k : Nat) :
    autoTick n i = nextImage n i
    ∧ (autoTick n)^[k] 0 = (k : Int) % (n : Int) := by
  refine ⟨rfl, ?_⟩
  have hsame : autoTick n = nextImage n := rfl
  rw [hsame]
  exact iterate_nextImage n k

/-- Witness for C4: a four-image carousel left alone for five intervals
ends at index 1. -/
theorem carousel_auto_rotation_witness :
    autoTick 4 0 = nextImage 4 0 ∧ (autoTick 4)^[5] 0 = 1 := by
  have h := carousel_auto_rotation 4 (by decide) 0 5
  exact ⟨h.1, h.2.trans (by decide)⟩

/-! Helper lemma for single-image cards. -/

/-- A card whose setup registered neither handler nor timer never moves
its index, whatever events arrive. -/
theorem runCard_of_inert (n : Nat) (s : CardSetup)
    (hp : s.hasPrevHandler = false) (hx : s.hasNextHandler = false)
    (ht : s.hasAutoTimer = false) (i : Int) (evs : List CardEvent) :
    runCard n s i evs = i := by
  induction evs generalizing i with
  | nil => rfl
  | cons e t ih =>
      have hstep : cardStep n s i e = i := by
        cases e <;> simp [cardStep, hp, hx, ht]
      unfold runCard
      rw [List.foldl_cons, hstep]
      exact ih i

/-- C5: a card with at most one image hides its `image-nav` element when
that element exists, registers no prev or next handler, starts no
auto-rotation timer, and its displayed index never changes under any
event sequence. -/
theorem single_image_card_static (n : Nat) (hn : n ≤ 1)
    (hasImageNav hasPrev hasNext : Bool) (i : Int) (evs : List CardEvent) :
    (setupCard n hasImageNav hasPrev hasNext).imageNavHidden = hasImageNav
    ∧ (setupCard n hasImageNav hasPrev hasNext).hasPrevHandler = false
    ∧ (setupCard n hasImageNav hasPrev hasNext).hasNextHandler = false
    ∧ (setupCard n hasImageNav hasPrev hasNext).hasAutoTimer = false
    ∧ runCard n (setupCard n hasImageNav hasPrev hasNext) i evs = i := by
  have hs : setupCard n hasImageNav hasPrev hasNext =
      { imageNavHidden := hasImageNav
        hasPrevHandler := false
        hasNextHandler := false
        hasAutoTimer := false } := by
    unfold setupCard
    rw [if_pos hn]
  refine ⟨by rw [hs], by rw [hs], by rw [hs], by rw [hs], ?_⟩
  rw [hs]
  exact runCard_of_inert n _ rfl rfl rfl i evs

/-- Witness for C5: a one-image card with an `image-nav` element and both
buttons present, hit by a next-click, a tick and a prev-click, keeps
index 0. -/
theorem single_image_card_static_witness :
    (setupCard 1 true true true).imageNavHidden = true
    ∧ (setupCard 1 true true true).hasPrevHandler = false
    ∧ (setupCard 1 true true true).hasNextHandler = false
    ∧ (setupCard 1 true true true).hasAutoTimer = false
    ∧ runCard 1 (setupCard 1 true true true) 0
        [CardEvent.nextClick, CardEvent.tick, CardEvent.prevClick] = 0 :=
  single_image_card_static 1 (by decide) true true true 0
    [CardEvent.nextClick, CardEvent.tick, CardEvent.prevClick]

/-- C6: an already-animated bar is returned unchanged by the visibility
check, so its displayed width and its flag survive any sequence of later
checks; and a bar that comes out animated either already was, or passed
the strict full-visibility test at this invocation. -/
theorem skill_bar_animated_stable (innerHeight : Int) (rect : BarRect)
    (bar : SkillBar) (later : List (Int × BarRect)) :
    (bar.animated = true → animateSkillsBar innerHeight rect bar = bar)
    ∧ (bar.animated = true →
        later.foldl (fun b c => animateSkillsBar c.1 c.2 b) bar = bar)
    ∧ ((animateSkillsBar innerHeight rect bar).animated = true →
        bar.animated = true ∨ (0 ≤ rect.top ∧ rect.bottom ≤ innerHeight)) := by
  have hstep : ∀ (ih : Int) (r : BarRect), bar.animated = true →
      animateSkillsBar ih r bar = bar := by
    intro ih r hb
    unfold animateSkillsBar
    simp [hb]
  refine ⟨hstep innerHeight rect, ?_, ?_⟩
  · intro hb
    induction later with
    | nil => rfl
    | cons c t ih =>
        rw [List.foldl_cons, hstep c.1 c.2 hb]
        exact ih
  · intro hres
    simp only [animateSkillsBar] at hres
    by_cases hcond :
        ((decide (rect.top ≥ 0) && decide (rect.bottom ≤ innerHeight))
          && !bar.animated) = true
    · have hv := hcond
      simp only [Bool.and_eq_true, decide_eq_true_eq] at hv
      exact Or.inr ⟨hv.1.1, hv.1.2⟩
    · rw [if_neg hcond] at hres
      exact Or.inl hres

/-- Witness for C6: an animated bar at width 90 percent survives a check
where it is fully visible and a later one where it is not, and an animated
outcome implies prior animation or strict visibility at this input. -/
theorem skill_bar_animated_stable_witness :
    (SkillBar.mk "90" "90%" true).animated = true
    ∧ animateSkillsBar 800 (BarRect.mk 10 300) (SkillBar.mk "90" "90%" true)
        = SkillBar.mk "90" "90%" true
    ∧ [((600 : Int), BarRect.mk (-20) 100), ((800 : Int), BarRect.mk 10 300)].foldl
        (fun b c => animateSkillsBar c.1 c.2 b) (SkillBar.mk "90" "90%" true)
        = SkillBar.mk "90" "90%" true := by
  have h := skill_bar_animated_stable 800 (BarRect.mk 10 300)
    (SkillBar.mk "90" "90%" true)
    [((600 : Int), BarRect.mk (-20) 100), ((800 : Int), BarRect.mk 10 300)]
  exact ⟨rfl, h.1 rfl, h.2.1 rfl⟩

/-- C7: the composed mail request always targets the fixed recipient with
the URL-encoded subject and the URL-encoded interpolated body template,
and on the Jane example the body template is exactly the claimed string
and the full link is the concrete encoded form. -/
theorem contact_composer_body (st : FormState)
    (name email subject message : String) :
    (handleSubmit st name email subject message).navigatedTo
        = mailtoLink name email subject message
    ∧ mailtoLink name email subject message
        = "mailto:imriteshreddy1035@gmail.com?subject="
            ++ encodeURIComponent subject ++ "&body="
            ++ encodeURIComponent (mailtoBody name email message)
    ∧ mailtoBody "Jane" "jane@x.com" "Hello"
        = "Name: Jane\nEmail: jane@x.com\n\nMessage:\nHello"
    ∧ encodeURIComponent (mailtoBody "Jane" "jane@x.com" "Hello")
        = "Name%3A%20Jane%0AEmail%3A%20jane%40x.com%0A%0AMessage%3A%0AHello"
    ∧ mailtoLink "Jane" "jane@x.com" "Hi" "Hello"
        = "mailto:imriteshreddy1035@gmail.com?subject=Hi&body=Name%3A%20Jane%0AEmail%3A%20jane%40x.com%0A%0AMessage%3A%0AHello" := by
  refine ⟨rfl, rfl, rfl, ?_, ?_⟩ <;> decide

/-- C8: the confirmation reset fires after 3000 time-units, restores the
submit button label to exactly its pre-submission text, clears the inline
background, and resets every field to its markup default; with empty
markup defaults every field ends up empty. -/
theorem contact_form_reset_after_timeout (st : FormState)
    (name email subject message : String)
    (hdef : st.defaults.all (fun d => d == "") = true) :
    (handleSubmit st name email subject message).resetDelay = 3000
    ∧ (handleSubmit st name email subject message).settled.buttonLabel
        = st.buttonLabel
    ∧ (handleSubmit st name email subject message).settled.buttonBackground = ""
    ∧ (handleSubmit st name email subject message).settled.fields = st.defaults
    ∧ (handleSubmit st name email subject message).settled.fields.all
        (fun d => d == "") = true := by
  exact ⟨rfl, rfl, rfl, rfl, hdef⟩

/-- Witness for C8 on a form holding Jane values with empty markup
defaults: the settled state keeps the `Send Message` label and only empty
fields. -/
theorem contact_form_reset_after_timeout_witness :
    (handleSubmit (FormState.mk ["Jane", "jane@x.com", "Hi", "Hello"]
        ["", "", "", ""] "Send Message" "") "Jane" "jane@x.com" "Hi"
        "Hello").resetDelay = 3000
    ∧ (handleSubmit (FormState.mk ["Jane", "jane@x.com", "Hi", "Hello"]
        ["", "", "", ""] "Send Message" "") "Jane" "jane@x.com" "Hi"
        "Hello").settled.buttonLabel = "Send Message"
    ∧ (handleSubmit (FormState.mk ["Jane", "jane@x.com", "Hi", "Hello"]
        ["", "", "", ""] "Send Message" "") "Jane" "jane@x.com" "Hi"
        "Hello").settled.fields.all (fun d => d == "") = true := by
  have h := contact_form_reset_after_timeout
    (FormState.mk ["Jane", "jane@x.com", "Hi", "Hello"] ["", "", "", ""]
      "Send Message" "") "Jane" "jane@x.com" "Hi" "Hello" (by decide)
  exact ⟨h.1, h.2.1, h.2.2.2.2⟩

/-- C9 counterexample: a page in which the expected navigation-toggle hook
is absent does not degrade gracefully; the DOMContentLoaded handler throws
a TypeError at its unguarded dereference. -/
theorem init_throws_without_hamburger :
    initPage (Page.mk false true true true true)
      = Except.error (JsError.typeError "hamburger.addEventListener") := rfl

/-- C9 amended: the typing-text and contact-form components are guarded
and silently skip setup when absent, but the navigation toggle is
dereferenced unguarded so its absence aborts the whole initialization with
a TypeError, and an absent nav menu or navbar makes the corresponding
click or scroll handler throw. -/
theorem init_guard_behavior (p : Page) (scrollY : Int) :
    (p.hasHamburger = false →
      initPage p = Except.error (JsError.typeError "hamburger.addEventListener"))
    ∧ (p.hasHamburger = true →
        initPage p = Except.ok
          (InitResult.mk true true p.hasTypingText p.hasContactForm))
    ∧ (p.hasNavMenu = false →
        hamburgerClick p = Except.error (JsError.typeError "navMenu.classList"))
    ∧ (p.hasNavbar = false →
        navbarScrollHandler p scrollY
          = Except.error (JsError.typeError "navbar.classList")) := by
  refine ⟨?_, ?_, ?_, ?_⟩
  · intro h
    unfold initPage
    rw [h]
    rfl
  · intro h
    unfold initPage
    rw [h]
    rfl
  · intro h
    unfold hamburgerClick
    rw [h]
    rfl
  · intro h
    unfold navbarScrollHandler
    rw [h]
    rfl

/-- Witness for C9 amended, on a page with the toggle present but nav
menu, navbar and contact form absent: initialization succeeds, skips the
contact handler, starts typing, and the unguarded handlers throw when
fired. -/
theorem init_guard_behavior_witness :
    initPage (Page.mk true false false true false)
      = Except.ok (InitResult.mk true true true false)
    ∧ hamburgerClick (Page.mk true false false true false)
      = Except.error (JsError.typeError "navMenu.classList")
    ∧ navbarScrollHandler (Page.mk true false false true false) 0
      = Except.error (JsError.typeError "navbar.classList") := by
  have h := init_guard_behavior (Page.mk true false false true false) 0
  exact ⟨h.2.1 rfl, h.2.2.1 rfl, h.2.2.2 rfl⟩

end Portfolio
